import Mathlib

/-!
Verification of the Irreversible Impact Score (IIS) calculator
(`calculate_iis.py`).

Modelling conventions:
* Python floats are modelled as rationals (`ℚ`); every quantity the
  program manipulates in the claims is exactly representable and the
  spec only asks for equality up to floating-point tolerance.
* A Python function that may raise `ValueError` is modelled as a
  function into `Except String`, the error message being the carried
  string.
* The CLI entry point `main` is modelled as a pure function from the
  parsed argument record to a structured result; `argparse` itself is
  library code, so parsing is not modelled, but the semantics of
  `parser.error` (print usage message to stderr, exit with status 2)
  is reflected in the result type and the `exitCode` / `stderrLines`
  functions.
-/

/-- Model of `_normalize_rate`: normalize rate so it is a decimal
(e.g. `0.08` for 8%).  Raises if the rate is negative; divides by 100
when the rate is strictly greater than 1. -/
def _normalize_rate (rate : ℚ) : Except String ℚ :=
  if rate < 0 then .error "Rate must be non-negative."
  else if rate > 1 then .ok (rate / 100)
  else .ok rate

/-- Model of `calculate_iis(principal, rate, rate_is_percent=None)`.
Validates `principal > 0` and `rate > 0`, determines the decimal rate
`r` from the `rate_is_percent` flag (`some true` divides by 100,
`some false` uses the rate as-is, `none` applies `_normalize_rate`),
then returns `(r / principal) * 100`. -/
def calculate_iis (principal rate : ℚ) (rate_is_percent : Option Bool) :
    Except String ℚ :=
  if principal ≤ 0 then .error "Principal must be greater than zero."
  else if rate ≤ 0 then .error "Rate must be greater than zero."
  else
    let rres : Except String ℚ :=
      match rate_is_percent with
      | some true => .ok (rate / 100)
      | some false => .ok rate
      | none => _normalize_rate rate
    match rres with
    | .error e => .error e
    | .ok r => .ok ((r / principal) * 100)

/-- Round a rational to the nearest integer, ties to even: the rounding
used by Python `format` for `f`-style conversions (exact for every value
the program prints, where no tie arises). -/
def roundHalfEven (x : ℚ) : ℤ :=
  let n := ⌊x⌋
  if x - n < 1 / 2 then n
  else if x - n > 1 / 2 then n + 1
  else if n % 2 = 0 then n else n + 1

deriving instance DecidableEq for Except

/-- Left-pad a string with zeros to length `d`. -/
def padZeros (d : ℕ) (s : String) : String :=
  String.mk (List.replicate (d - s.length) '0') ++ s

/-- Split a reversed digit list into groups of three (lowest group
first), for thousands separators. -/
def chunk3 : List Char → List (List Char)
  | [] => []
  | [a] => [[a]]
  | [a, b] => [[a, b]]
  | a :: b :: c :: rest => [a, b, c] :: chunk3 rest

/-- Render a natural number with thousands separators, as Python's
`,` format option does for the integer part. -/
def groupThousands (n : ℕ) : String :=
  let rev := (toString n).toList.reverse
  String.mk (List.intercalate [','] ((chunk3 rev).map List.reverse).reverse)

/-- Model of Python `f"{q:.d f}"` for the nonnegative values the program
prints: fixed-point with `d` digits after the decimal point. -/
def formatFixed (d : ℕ) (q : ℚ) : String :=
  let m := (roundHalfEven (q * 10 ^ d)).toNat
  toString (m / 10 ^ d) ++ "." ++ padZeros d (toString (m % 10 ^ d))

/-- Model of `_format_currency`: Python `f"${amount:,.2f}"` for the
nonnegative amounts the program prints. -/
def _format_currency (amount : ℚ) : String :=
  let cents := (roundHalfEven (amount * 100)).toNat
  "$" ++ groupThousands (cents / 100) ++ "." ++ padZeros 2 (toString (cents % 100))

/-- The parsed command-line arguments (`argparse` result): `--principal`
and `--rate` are optional floats, `--percent` and `--examples` are
store-true booleans (so `false`, not absent, when omitted). -/
structure Args where
  principal : Option ℚ
  rate : Option ℚ
  percent : Bool
  examples : Bool
deriving DecidableEq

/-- Outcome of one run of `main`:
* `usageError` — `parser.error` was called (usage text and message go to
  stderr, process exits with status 2, no computation was attempted);
* `examplesRun lines` — example mode ran and printed `lines` to stdout;
* `single iis` — one score was computed and printed (the stdout line
  echoes the inputs and shows `formatFixed 6 iis`);
* `calcFailed msg` — `calculate_iis` raised `ValueError(msg)`, caught at
  the CLI boundary. -/
inductive CliResult where
  | usageError : CliResult
  | examplesRun : List String → CliResult
  | single : ℚ → CliResult
  | calcFailed : String → CliResult
deriving DecidableEq

/-- The stdout lines of example mode, given the two computed scores. -/
def examplesStdout (iisA iisB : ℚ) : List String :=
  [ "--- IIS CALCULATION PROTOCOL ENGAGED (EXAMPLES) ---",
    "Debt A (P: " ++ _format_currency 25000 ++ " | R: " ++
      formatFixed 2 ((45 / 1000) * 100) ++ "%) -> IIS: " ++ formatFixed 6 iisA,
    "Debt B (P: " ++ _format_currency 2500 ++ " | R: " ++
      formatFixed 2 ((12 / 100) * 100) ++ "%) -> IIS: " ++ formatFixed 6 iisB,
    if iisA > iisB then
      "\nDECISION: Attack Debt A (Higher IIS) first for MAXIMUM impact."
    else
      "\nDECISION: Attack Debt B (Higher IIS) first for MAXIMUM impact." ]

/-- Model of `main(argv)` after argument parsing.  Mirrors the source:
the examples branch first (fixed debts 25000 at 0.045 and 2500 at 0.12,
heuristic normalization), then the missing-argument check
(`parser.error`), then the single computation, where the CLI passes
`rate_is_percent=args.percent` — the parsed boolean, which is `False`
when `--percent` is omitted.  `ValueError` from `calculate_iis` is
caught and mapped to `calcFailed`. -/
def cliMain (a : Args) : CliResult :=
  if a.examples then
    match calculate_iis 25000 (45 / 1000) none,
          calculate_iis 2500 (12 / 100) none with
    | .ok iisA, .ok iisB => .examplesRun (examplesStdout iisA iisB)
    | .error e, _ => .calcFailed e
    | .ok _, .error e => .calcFailed e
  else
    match a.principal, a.rate with
    | some p, some r =>
      match calculate_iis p r (some a.percent) with
      | .ok iis => .single iis
      | .error e => .calcFailed e
    | _, _ => .usageError

/-- Process exit status for each outcome: `parser.error` exits with 2,
the `except ValueError` handler returns 2, both success paths return 0. -/
def exitCode : CliResult → ℕ
  | .usageError => 2
  | .examplesRun _ => 0
  | .single _ => 0
  | .calcFailed _ => 2

/-- Lines written to standard error.  For `usageError`, `argparse` also
prints a usage synopsis before the message; the message itself is the
one passed to `parser.error` in the source. -/
def stderrLines : CliResult → List String
  | .usageError =>
      ["Either --examples or both --principal and --rate must be provided."]
  | .calcFailed e => ["Error: " ++ e]
  | .examplesRun _ => []
  | .single _ => []

/-- Concrete argument record: rate given but principal missing. -/
def argsMissingPrincipal : Args :=
  { principal := none, rate := some 5, percent := false, examples := false }

/-- Concrete argument record: negative principal, rate 8, no flags. -/
def argsNegPrincipal : Args :=
  { principal := some (-5), rate := some 8, percent := false, examples := false }

/-- Helper: with valid inputs, `calculate_iis` succeeds whatever the flag. -/
theorem calculate_iis_isOk (p r : ℚ) (o : Option Bool) (hp : 0 < p) (hr : 0 < r) :
    ∃ v, calculate_iis p r o = .ok v := by
  unfold calculate_iis _normalize_rate
  rw [if_neg (not_le.mpr hp), if_neg (not_le.mpr hr)]
  cases o with
  | none =>
    simp only [if_neg (not_lt.mpr hr.le)]
    by_cases h1 : r > 1
    · rw [if_pos h1]; exact ⟨_, rfl⟩
    · rw [if_neg h1]; exact ⟨_, rfl⟩
  | some b => cases b <;> exact ⟨_, rfl⟩

/-- C2: for every principal `p > 0` and decimal rate `0 < r ≤ 1`,
`calculate_iis p r` with no flag returns `(r / p) * 100`. -/
theorem calculate_iis_decimal_identity (p r : ℚ) (hp : 0 < p) (hr0 : 0 < r)
    (hr1 : r ≤ 1) : calculate_iis p r none = .ok ((r / p) * 100) := by
  unfold calculate_iis _normalize_rate
  rw [if_neg (not_le.mpr hp), if_neg (not_le.mpr hr0)]
  simp only [if_neg (not_lt.mpr hr0.le), if_neg (not_lt.mpr hr1)]

/-- Witness for C2 at principal 200, rate 1/2. -/
theorem calculate_iis_decimal_identity_witness :
    (0 : ℚ) < 200 ∧ calculate_iis 200 (1 / 2) none = .ok ((1 / 2 / 200) * 100) :=
  ⟨by norm_num,
    calculate_iis_decimal_identity 200 (1 / 2) (by norm_num) (by norm_num) (by norm_num)⟩

/-- C3: `calculate_iis p r o` raises `ValueError` exactly when `p ≤ 0` or
`r ≤ 0`; on all other inputs it returns a value. -/
theorem calculate_iis_error_iff (p r : ℚ) (o : Option Bool) :
    (∃ e, calculate_iis p r o = .error e) ↔ p ≤ 0 ∨ r ≤ 0 := by
  constructor
  · rintro ⟨e, he⟩
    by_contra hc
    push_neg at hc
    obtain ⟨v, hv⟩ := calculate_iis_isOk p r o hc.1 hc.2
    rw [hv] at he
    exact Except.noConfusion he
  · intro h
    unfold calculate_iis
    by_cases hp : p ≤ 0
    · rw [if_pos hp]; exact ⟨_, rfl⟩
    · rw [if_neg hp, if_pos (h.resolve_left hp)]; exact ⟨_, rfl⟩

/-- Witness for C3: principal −1 yields an error. -/
theorem calculate_iis_error_iff_witness :
    ∃ e, calculate_iis (-1) 5 none = .error e :=
  (calculate_iis_error_iff (-1) 5 none).mpr (Or.inl (by norm_num))

/-- C5: the heuristic on rate 8 agrees with the explicit-decimal call on
rate 0.08: `calculate_iis 100 8` (no flag) equals
`calculate_iis 100 0.08 rate_is_percent=False`, both 0.08. -/
theorem heuristic_matches_explicit_decimal :
    calculate_iis 100 8 none = calculate_iis 100 (8 / 100) (some false) ∧
    calculate_iis 100 8 none = .ok (8 / 100) := by
  have h1 : calculate_iis 100 8 none = .ok (8 / 100) := by
    unfold calculate_iis _normalize_rate
    norm_num
  have h2 : calculate_iis 100 (8 / 100) (some false) = .ok (8 / 100) := by
    unfold calculate_iis
    norm_num
  exact ⟨h1.trans h2.symm, h1⟩

/-- C8: for valid inputs, passing `rate_is_percent=True` with rate `r`
gives the same result as passing `rate_is_percent=False` with `r / 100`. -/
theorem percent_flag_div100 (p r : ℚ) (hp : 0 < p) (hr : 0 < r) :
    calculate_iis p r (some true) = calculate_iis p (r / 100) (some false) := by
  have hr100 : ¬(r / 100 ≤ 0) := not_le.mpr (by positivity)
  unfold calculate_iis
  rw [if_neg (not_le.mpr hp), if_neg (not_le.mpr hr), if_neg (not_le.mpr hp),
    if_neg hr100]

/-- Witness for C8 at principal 100, rate 8. -/
theorem percent_flag_div100_witness :
    calculate_iis 100 8 (some true) = calculate_iis 100 (8 / 100) (some false) :=
  percent_flag_div100 100 8 (by norm_num) (by norm_num)

/-- C9: a rate of exactly 1 is treated as a decimal by the heuristic:
`calculate_iis p 1` with no flag returns `(1 / p) * 100`. -/
theorem heuristic_boundary_one (p : ℚ) (hp : 0 < p) :
    calculate_iis p 1 none = .ok ((1 / p) * 100) := by
  unfold calculate_iis _normalize_rate
  rw [if_neg (not_le.mpr hp)]
  norm_num

/-- Witness for C9 at principal 50. -/
theorem heuristic_boundary_one_witness :
    calculate_iis 50 1 none = .ok ((1 / 50) * 100) :=
  heuristic_boundary_one 50 (by norm_num)

/-- C10: the negative-rate error branch of `_normalize_rate` is
unreachable through `calculate_iis`: no call ever returns the
message `Rate must be non-negative.`. -/
theorem negative_rate_branch_unreachable (p r : ℚ) (o : Option Bool) :
    calculate_iis p r o ≠ .error "Rate must be non-negative." := by
  unfold calculate_iis _normalize_rate
  by_cases hp : p ≤ 0
  · rw [if_pos hp]
    intro h
    exact absurd (Except.error.inj h) (by decide)
  · rw [if_neg hp]
    by_cases hr : r ≤ 0
    · rw [if_pos hr]
      intro h
      exact absurd (Except.error.inj h) (by decide)
    · have hr' : 0 < r := not_le.mp hr
      rw [if_neg hr]
      cases o with
      | none =>
        simp only [if_neg (not_lt.mpr hr'.le)]
        by_cases h1 : r > 1
        · rw [if_pos h1]; exact fun h => Except.noConfusion h
        · rw [if_neg h1]; exact fun h => Except.noConfusion h
      | some b => cases b <;> exact fun h => Except.noConfusion h

/-- Witness for C10 at principal 100, rate −5. -/
theorem negative_rate_branch_unreachable_witness :
    calculate_iis 100 (-5) none ≠ .error "Rate must be non-negative." :=
  negative_rate_branch_unreachable 100 (-5) none

/-- Helper: evaluation of `formatFixed 6` at the Debt A score 0.00018. -/
theorem formatFixed_debtA : formatFixed 6 (18 / 100000) = "0.000180" := by
  have h : roundHalfEven ((18 / 100000 : ℚ) * 10 ^ 6) = 180 := by
    unfold roundHalfEven
    norm_num
  unfold formatFixed
  rw [h]
  rfl

/-- Helper: evaluation of `formatFixed 6` at the Debt B score 0.0048. -/
theorem formatFixed_debtB : formatFixed 6 (48 / 10000) = "0.004800" := by
  have h : roundHalfEven ((48 / 10000 : ℚ) * 10 ^ 6) = 4800 := by
    unfold roundHalfEven
    norm_num
  unfold formatFixed
  rw [h]
  rfl

/-- Helper: Debt A rate 0.045 displayed as a percentage. -/
theorem formatFixed_rateA : formatFixed 2 ((45 / 1000) * 100) = "4.50" := by
  have h : roundHalfEven (((45 / 1000 : ℚ) * 100) * 10 ^ 2) = 450 := by
    unfold roundHalfEven
    norm_num
  unfold formatFixed
  rw [h]
  rfl

/-- Helper: Debt B rate 0.12 displayed as a percentage. -/
theorem formatFixed_rateB : formatFixed 2 ((12 / 100) * 100) = "12.00" := by
  have h : roundHalfEven (((12 / 100 : ℚ) * 100) * 10 ^ 2) = 1200 := by
    unfold roundHalfEven
    norm_num
  unfold formatFixed
  rw [h]
  rfl

/-- Helper: the Debt A principal formatted as currency. -/
theorem format_currency_debtA : _format_currency 25000 = "$25,000.00" := by
  have h : roundHalfEven ((25000 : ℚ) * 100) = 2500000 := by
    unfold roundHalfEven
    norm_num
  unfold _format_currency
  rw [h]
  rfl

/-- Helper: the Debt B principal formatted as currency. -/
theorem format_currency_debtB : _format_currency 2500 = "$2,500.00" := by
  have h : roundHalfEven ((2500 : ℚ) * 100) = 250000 := by
    unfold roundHalfEven
    norm_num
  unfold _format_currency
  rw [h]
  rfl

/-- Helper: the Debt A score evaluates to 0.00018. -/
theorem iis_debtA_eval : calculate_iis 25000 (45 / 1000) none = .ok (18 / 100000) := by
  unfold calculate_iis _normalize_rate
  norm_num

/-- Helper: the Debt B score evaluates to 0.0048. -/
theorem iis_debtB_eval : calculate_iis 2500 (12 / 100) none = .ok (48 / 10000) := by
  unfold calculate_iis _normalize_rate
  norm_num

/-- C4: example mode computes 0.00018 for Debt A (displayed `0.000180`)
and 0.0048 for Debt B (displayed `0.004800`); the second is larger, so
the decision line names Debt B. -/
theorem example_mode_output :
    calculate_iis 25000 (45 / 1000) none = .ok (18 / 100000) ∧
    formatFixed 6 (18 / 100000) = "0.000180" ∧
    calculate_iis 2500 (12 / 100) none = .ok (48 / 10000) ∧
    formatFixed 6 (48 / 10000) = "0.004800" ∧
    (18 / 100000 : ℚ) < 48 / 10000 ∧
    cliMain { principal := none, rate := none, percent := false, examples := true } =
      .examplesRun
        [ "--- IIS CALCULATION PROTOCOL ENGAGED (EXAMPLES) ---",
          "Debt A (P: $25,000.00 | R: 4.50%) -> IIS: 0.000180",
          "Debt B (P: $2,500.00 | R: 12.00%) -> IIS: 0.004800",
          "\nDECISION: Attack Debt B (Higher IIS) first for MAXIMUM impact." ] := by
  have hgt : ¬((18 / 100000 : ℚ) > 48 / 10000) := by norm_num
  refine ⟨iis_debtA_eval, formatFixed_debtA, iis_debtB_eval, formatFixed_debtB,
    by norm_num, ?_⟩
  simp only [cliMain, iis_debtA_eval, iis_debtB_eval, examplesStdout,
    formatFixed_debtA, formatFixed_debtB, formatFixed_rateA, formatFixed_rateB,
    format_currency_debtA, format_currency_debtB, if_neg hgt, if_true]
  rfl

/-- C1: with the percent flag omitted and a rate of 8 > 1, the CLI does
not apply the heuristic: it passes the parsed boolean `False`, so the
rate is used as a decimal and the printed score is 8.000000 rather than
the claimed `((8/100)/100)*100 = 0.08` (which would print `0.080000`). -/
theorem cli_omitted_percent_no_heuristic :
    cliMain { principal := some 100, rate := some 8, percent := false, examples := false } =
      .single 8 ∧
    formatFixed 6 8 = "8.000000" ∧
    ((8 / 100 : ℚ) / 100) * 100 = 8 / 100 ∧
    formatFixed 6 (8 / 100) = "0.080000" ∧
    (8 : ℚ) ≠ 8 / 100 := by
  have hc : calculate_iis 100 8 (some false) = .ok 8 := by
    unfold calculate_iis
    norm_num
  refine ⟨?_, ?_, by norm_num, ?_, by norm_num⟩
  · simp [cliMain, hc]
  · have h : roundHalfEven ((8 : ℚ) * 10 ^ 6) = 8000000 := by
      unfold roundHalfEven
      norm_num
    unfold formatFixed
    rw [h]
    rfl
  · have h : roundHalfEven ((8 / 100 : ℚ) * 10 ^ 6) = 80000 := by
      unfold roundHalfEven
      norm_num
    unfold formatFixed
    rw [h]
    rfl

/-- C6: without the examples flag, a missing principal or rate makes the
CLI call `parser.error`: a usage error with non-zero exit status, and no
computation. -/
theorem usage_error_on_missing_args (a : Args) (hex : a.examples = false)
    (h : a.principal = none ∨ a.rate = none) :
    cliMain a = .usageError ∧ exitCode (cliMain a) ≠ 0 := by
  have hm : cliMain a = .usageError := by
    rcases h with h | h
    · simp [cliMain, hex, h]
    · cases hp : a.principal with
      | none => simp [cliMain, hex, h, hp]
      | some p => simp [cliMain, hex, h, hp]
  refine ⟨hm, ?_⟩
  rw [hm]
  decide

/-- Witness for C6: rate given but principal missing. -/
theorem usage_error_on_missing_args_witness :
    cliMain argsMissingPrincipal = .usageError ∧
    exitCode (cliMain argsMissingPrincipal) ≠ 0 :=
  usage_error_on_missing_args argsMissingPrincipal rfl (Or.inl rfl)

/-- C7: every `ValueError` from the calculator is caught at the CLI
boundary, printed to stderr as `Error: <message>`, and mapped to exit
code 2; both success paths exit with code 0. -/
theorem cli_error_propagation (a : Args) :
    (∀ e, cliMain a = .calcFailed e → exitCode (cliMain a) = 2 ∧
        stderrLines (cliMain a) = ["Error: " ++ e]) ∧
    (∀ out, cliMain a = .examplesRun out → exitCode (cliMain a) = 0) ∧
    (∀ v, cliMain a = .single v → exitCode (cliMain a) = 0) ∧
    (∀ p r e, a.examples = false → a.principal = some p → a.rate = some r →
      calculate_iis p r (some a.percent) = .error e → cliMain a = .calcFailed e) := by
  refine ⟨?_, ?_, ?_, ?_⟩
  · intro e h
    rw [h]
    exact ⟨rfl, rfl⟩
  · intro out h
    rw [h]
    rfl
  · intro v h
    rw [h]
    rfl
  · intro p r e hex hp hr hc
    simp [cliMain, hex, hp, hr, hc]

/-- Witness for C7: a non-positive principal is reported as
`Error: Principal must be greater than zero.` with exit code 2. -/
theorem cli_error_propagation_witness :
    exitCode (cliMain argsNegPrincipal) = 2 ∧
    stderrLines (cliMain argsNegPrincipal) =
      ["Error: Principal must be greater than zero."] := by
  have hc : calculate_iis (-5) 8 (some false) =
      .error "Principal must be greater than zero." := by
    unfold calculate_iis
    norm_num
  have hm : cliMain argsNegPrincipal =
      .calcFailed "Principal must be greater than zero." := by
    simp [cliMain, argsNegPrincipal, hc]
  exact (cli_error_propagation argsNegPrincipal).1
    "Principal must be greater than zero." hm
